import Mathlib

/-!
Verification of the HostingBackup script (`hostingbackup.py`, version 1.3).

The script is a sequential backup orchestrator: it reads an INI-style
configuration, then runs an ordered set of optional actions (delete old
local backups, delete old remote backups, compress directories, export
databases, check database sizes, upload the backup, send a notification
email), accumulating an HTML activity log and a single `success` flag.

This file is a shallow embedding of that script:

* pure string/number helpers (`convert_size`, `get_file_size`,
  Python-style `split`/`replace`/`rstrip`) are translated directly;
* each stage function (`delete_dirs_local`, `compress_dirs_local`,
  `export_db` argument construction, `check_size_db`,
  `delete_dirs_remote`) is translated with the outcomes of its external
  collaborators (filesystem, subprocess calls) supplied as explicit data;
* the `__main__` block is translated as a step-by-step state transformer
  over an event trace, with `sys.exit` and uncaught Python exceptions
  modelled as early termination (`Outcome`).

Python floats are modelled as rationals (exact arithmetic; the script
only ever divides byte counts by powers of two and compares megabyte
values, where the double rounding error is irrelevant at the values
considered here).  Python `round` rounds half to even, which is
reproduced exactly.
-/

namespace HostingBackup

/-! ## Python string helpers -/

/-- Python `str.split(sep)` for a single-character separator, on the
underlying character list.  Mirrors CPython: splitting the empty string
yields `[""]`, and consecutive separators yield empty fields. -/
def pySplitChars (sep : Char) : List Char → List (List Char)
  | [] => [[]]
  | c :: cs =>
    if c = sep then [] :: pySplitChars sep cs
    else
      match pySplitChars sep cs with
      | t :: ts => (c :: t) :: ts
      | [] => [[c]]

/-- Python `str.split(sep)` on `String`. -/
def pySplit (s : String) (sep : Char) : List String :=
  (pySplitChars sep s.data).map String.mk

/-- Python `str.replace(' ', '')`: remove every space character. -/
def pyRemoveSpaces (s : String) : String :=
  String.mk (s.data.filter (fun c => c ≠ ' '))

/-- Python `str.rstrip(chr(10))`: drop trailing newline characters. -/
def rstripNL (s : String) : String :=
  String.mk ((s.data.reverse.dropWhile (fun c => c = '\n')).reverse)

/-! ## Numeric helpers (`convert_size`, `get_file_size`) -/

/-- Python `round(q)` on an exact rational: round half to even,
computed on the numerator/denominator so that it kernel-evaluates. -/
def pythonRound (q : ℚ) : ℤ :=
  let f := q.num.fdiv (q.den : ℤ)
  let r := q.num - f * (q.den : ℤ)
  if 2 * r < (q.den : ℤ) then f
  else if (q.den : ℤ) < 2 * r then f + 1
  else if f % 2 = 0 then f else f + 1

/-- `convert_size` from the script: a size in MB is rendered as rounded
megabytes, or rounded gigabytes when strictly above 1024 MB. -/
def convert_size (size_mb : ℚ) : String :=
  if size_mb > 1024 then toString (pythonRound (size_mb / 1024)) ++ "GB"
  else toString (pythonRound size_mb) ++ "MB"

/-- Python `round(a / b)` for natural `a`, `b` (with `b > 0`), again
rounding half to even, in pure `Nat` arithmetic. -/
def pyRoundDiv (a b : Nat) : Nat :=
  let f := a / b
  let r := a % b
  if 2 * r < b then f
  else if b < 2 * r then f + 1
  else if f % 2 = 0 then f else f + 1

/-- `get_file_size` from the script: `convert_size(getsize(file)/1024/1024)`,
expressed directly on the byte count so that it kernel-evaluates.
`bytes/2^20 > 1024` iff `bytes > 2^30`, and the rounded quotients agree
with `convert_size` on the exact rational `bytes/2^20`. -/
def get_file_size (bytes : Nat) : String :=
  if bytes > 1073741824 then toString (pyRoundDiv bytes 1073741824) ++ "GB"
  else toString (pyRoundDiv bytes 1048576) ++ "MB"

/-! ## `delete_dirs_local` -/

/-- One entry of `Path(dirs_local).iterdir()`, together with the data the
script reads from the filesystem for it: whether it is a directory, its
age `now - mtime` in days, and whether `shutil.rmtree` on it raises
`OSError`. -/
structure LocalEntry where
  name : String
  isDir : Bool := true
  ageDays : ℚ := 0
  deleteFails : Bool := false
  deriving DecidableEq, Repr

/-- `delete_dirs_local(dirs_local, days)`: for each directory entry older
than `days` (strictly), delete it; an `OSError` from the deletion is
caught inside the loop body, records an `(ERROR)` line and sets the
error code, and the loop continues with the next entry. -/
def delete_dirs_local (entries : List LocalEntry) (days : ℤ) : Nat × String :=
  entries.foldl
    (fun acc e =>
      if e.isDir ∧ e.ageDays > (days : ℚ) then
        if e.deleteFails then (1, acc.2 ++ ("(ERROR) " ++ e.name ++ "\n"))
        else (acc.1, acc.2 ++ ("(OK) " ++ e.name ++ "\n"))
      else acc)
    (0, "")

/-! ## `compress_dirs_local` -/

/-- What happens when the script tries to produce one archive: success
(with the resulting archive size in bytes), or an `OSError` / a
`subprocess.CalledProcessError`.  In the failure cases,
`afterBytes` is the size of `<target>.tar.gz` if that file exists on
disk after the failure, and `none` if it does not. -/
inductive CompressOutcome where
  | ok (bytes : Nat)
  | osErr (strerror : String) (afterBytes : Option Nat)
  | procErr (output : String) (afterBytes : Option Nat)
  deriving DecidableEq, Repr

/-- One `(name, dir)` pair from the `directories` section, with the
filesystem/subprocess behaviour the script observes for it. -/
structure CompressSpec where
  name : String
  dir : String
  dirExists : Bool := true
  outcome : CompressOutcome := .ok 0
  deriving DecidableEq, Repr

/-- `compress_dirs_local`: one archive per spec.  A nonexistent source
directory records `(ERROR) <dir> does not exist` and continues; a caught
`OSError`/`CalledProcessError` records an `(ERROR)` line — but that
handler itself calls `get_file_size` on `<target>.tar.gz`, which raises
an uncaught `OSError` when the file does not exist, aborting the whole
function (and the script).  The uncaught exception is the `.error` case. -/
def compress_dirs_local : List CompressSpec → Nat → String → Except String (Nat × String)
  | [], code, msg => .ok (code, msg)
  | s :: rest, code, msg =>
    if s.dirExists then
      match s.outcome with
      | .ok bytes =>
        compress_dirs_local rest code
          (msg ++ ("(OK) " ++ s.dir ++ " (" ++ get_file_size bytes ++ ")\n"))
      | .osErr strerror afterBytes =>
        match afterBytes with
        | some b =>
          compress_dirs_local rest 2
            (msg ++ ("(ERROR) " ++ s.dir ++ " (" ++ get_file_size b ++ ") " ++ strerror ++ "\n"))
        | none => .error ("FileNotFoundError: " ++ s.dir)
      | .procErr out afterBytes =>
        match afterBytes with
        | some b =>
          compress_dirs_local rest 1
            (msg ++ ("(ERROR) " ++ s.dir ++ " (" ++ get_file_size b ++ ") " ++ rstripNL out ++ "\n"))
        | none => .error ("FileNotFoundError: " ++ s.dir)
    else
      compress_dirs_local rest 1 (msg ++ ("(ERROR) " ++ s.dir ++ " does not exist\n"))

/-! ## `export_db` (command-line construction) -/

/-- The excluded-table names: `exclude.replace(' ', '').split(',')`. -/
def excludeTables (exclude : String) : List String :=
  pySplit (pyRemoveSpaces exclude) ','

/-- The `mysqldump` argument list built by `export_db`: the fixed
arguments, then, for each element of `excludeTables exclude`, the pair
`--ignore-table <database>.<table>` appended in the loop. -/
def export_db_args (command_path user port password host database exclude target_file : String) :
    List String :=
  (excludeTables exclude).foldl
    (fun args t => args ++ ["--ignore-table", database ++ "." ++ t])
    [command_path, "-u", user, "--port", port, "-p" ++ password, "-h", host, database,
      "--force", "--single-transaction", "--result-file", target_file]

/-! ## `check_size_db` -/

/-- The loop over the query output: `db_size` starts at `0` and is
overwritten by the second tab-separated field of every line whose first
field equals the database name (so the last matching row wins, and no
matching row leaves `0`).  Rows are modelled as already split into
(first field, parsed second field). -/
def dbSizeOf (database : String) (rows : List (String × ℚ)) : ℚ :=
  rows.foldl (fun acc r => if r.1 = database then r.2 else acc) 0

/-- `check_size_db`: a `CalledProcessError` from the `mysql` call is the
`.error` case and yields code `2` with an `(ERROR)` line and no size;
otherwise the measured size is compared strictly against the limit:
above it, code `1` with a `(WARNING)` line, else code `0` with `(OK)`. -/
def check_size_db (aliasName database : String) (max_size : ℤ)
    (queryResult : Except String (List (String × ℚ))) : Nat × String :=
  match queryResult with
  | .error out => (2, "(ERROR) " ++ aliasName ++ " " ++ rstripNL out ++ "\n")
  | .ok rows =>
    let db_size := dbSizeOf database rows
    if db_size > (max_size : ℚ) then
      (1, "(WARNING) " ++ aliasName ++ " (" ++ convert_size db_size ++ ")" ++ "\n")
    else
      (0, "(OK) " ++ aliasName ++ " (" ++ convert_size db_size ++ ")" ++ "\n")

/-! ## `delete_dirs_remote` -/

/-- One line of the `rclone lsd` listing (after the dropped header
line), as the script reads it: the directory name, its age in whole days
(`(now.date() - dir_date.date()).days`), and the behaviour of the
`rclone purge` call for it. -/
structure RemoteEntry where
  name : String
  ageDays : ℤ
  purgeFails : Bool := false
  purgeOutput : String := ""
  deriving DecidableEq, Repr

/-- The loop body of `delete_dirs_remote`.  Crucially, the single
`try/except` wraps the whole loop: the first `purge` that raises
`CalledProcessError` ends the function with code `1`, and the remaining
entries are never examined. -/
def delete_dirs_remote_go (dir_remote : String) (days : ℤ) :
    List RemoteEntry → Nat × String → Nat × String
  | [], acc => acc
  | e :: rest, (code, msg) =>
    if e.ageDays > days then
      if e.purgeFails then
        (1, msg ++ ("(ERROR) " ++ dir_remote ++ "/" ++ e.name ++ "\n"
          ++ rstripNL e.purgeOutput ++ "\n"))
      else
        delete_dirs_remote_go dir_remote days rest
          (code, msg ++ ("(OK) " ++ dir_remote ++ "/" ++ e.name ++ "\n"))
    else delete_dirs_remote_go dir_remote days rest (code, msg)

/-- `delete_dirs_remote`: a failing `rclone lsd` records a single
`(ERROR)` line (with `dir_name` still the empty string); otherwise the
entries are processed by `delete_dirs_remote_go`. -/
def delete_dirs_remote (dir_remote : String) (days : ℤ)
    (lsd : Except String (List RemoteEntry)) : Nat × String :=
  match lsd with
  | .error out => (1, "(ERROR) " ++ dir_remote ++ "/" ++ "\n" ++ rstripNL out ++ "\n")
  | .ok entries => delete_dirs_remote_go dir_remote days entries (0, "")

/-! ## Notification decision (`__main__`, lines 687-693) -/

/-- The send condition of line 688: the action string equals `Always`,
or it equals `OnlyError` and the run was not successful. -/
def emailDecision (send_email_action : String) (success : Bool) : Bool :=
  send_email_action = "Always" || (send_email_action = "OnlyError" && !success)

/-- The subject built in `__main__`: the configured subject plus
`" (OK)"` or `" (ERROR)"` according to `success`. -/
def emailSubject (subject : String) (success : Bool) : String :=
  if success then subject ++ " (OK)" else subject ++ " (ERROR)"

/-! ## Configuration

The `__main__` block reads the configuration through
`configparser`.  `Option` fields are `none` when the key is absent
(`has_option` false / `.get` returning the fallback).  Boolean action
flags mirror `getboolean` with a missing key reading as false.  The
`[general]`, `[actions]`, `[executables]` and `[email]` sections are
modelled as always present (the script would raise `KeyError` on the
very first access otherwise; no claim concerns that case). -/

structure GeneralCfg where
  dir_local : Option String := none
  days_keep_local : Option ℤ := none
  days_keep_remote : Option ℤ := none
  dir_remote : Option String := none
  compress_method : Option String := none
  upload_low_memory : Option Bool := none
  upload_log : Option Bool := none
  deriving Repr

structure ActionsCfg where
  delete_local : Bool := false
  delete_remote : Bool := false
  compress_dir : Bool := false
  export_db : Bool := false
  check_db_size : Bool := false
  upload_dir : Bool := false
  send_email : Option String := none
  deriving Repr

structure ExecutablesCfg where
  rclone : Option String := none
  tar : Option String := none
  mysqldump : Option String := none
  mysql : Option String := none
  sendmail : Option String := none
  deriving Repr

structure EmailCfg where
  subject : Option String := none
  sender : Option String := none
  receiver : Option String := none
  method : Option String := none
  smtp_server : Option String := none
  smtp_port : Option String := none
  smtp_user : Option String := none
  smtp_password : Option String := none
  deriving Repr

/-- One `[databaseN]` section (a section whose name contains
`"database"`).  `exportFlag` and `checkSizeFlag` are the `export` and
`check_size` booleans; `max_size` is the `int(...)` of the configured
limit. -/
structure DbSection where
  exportFlag : Bool := false
  checkSizeFlag : Bool := false
  aliasName : Option String := none
  host : Option String := none
  port : Option String := none
  database : Option String := none
  user : Option String := none
  password : Option String := none
  exclude : Option String := none
  max_size : Option ℤ := none
  deriving Repr

/-- The whole configuration file.  `databases` lists the sections whose
name contains `"database"`, in file order. -/
structure Config where
  general : GeneralCfg
  actions : ActionsCfg
  executables : ExecutablesCfg
  email : EmailCfg
  databases : List DbSection
  deriving Repr

/-! ## Environment

Everything the `__main__` block observes from outside the
configuration: filesystem existence checks and the return values of the
stage functions (whose internal behaviour is modelled separately
above).  `queryRes` is the parsed output of the `mysql` size query, per
database name, as consumed by `check_size_db`. -/

structure Env where
  dirLocalExists : Bool := true
  exeExists : String → Bool := fun _ => true
  deleteLocalRes : Nat × String := (0, "")
  deleteRemoteRes : Nat × String := (0, "")
  compressRes : Nat × String := (0, "")
  exportRes : String → Nat × String := fun _ => (0, "")
  queryRes : String → Except String (List (String × ℚ)) := fun _ => .ok []
  uploadRes : Nat × String := (0, "")
  smtpRes : String := ""
  sendmailRes : String := ""

/-! ## Events and outcome -/

/-- Observable actions of one run, in program order: touching the log
file, writing its header/action/result rows, creating the per-run
working directory, executing each stage, copying the log, and handing a
message to the mail transport. -/
inductive Event where
  | logCreate
  | logHeader (s : String)
  | logAction (s : String)
  | logRow (s : String)
  | mkWorkDir
  | runDeleteLocal
  | runDeleteRemote
  | runCompress
  | runExport (aliasName : String)
  | runCheckSize (aliasName : String)
  | runUpload
  | copyLog
  | emailSent (subject : String)
  deriving DecidableEq, Repr

/-- How the process ends: falling off the end of the script
(`completed`, exit status 0), `sys.exit(msg)` with a string argument
(exit status 1, even for the empty string), or an uncaught Python
exception (also exit status 1). -/
inductive Outcome where
  | completed
  | exitMsg (msg : String)
  | pyError (msg : String)
  deriving DecidableEq, Repr

/-- The process exit status produced by each outcome.  CPython exits
with status 0 for `sys.exit(None)` / falling off the end, and status 1
both for `sys.exit` on any non-integer argument (strings included) and
for an uncaught exception. -/
def exitStatus : Outcome → Nat
  | .completed => 0
  | .exitMsg _ => 1
  | .pyError _ => 1

/-- The mutable state of the `__main__` block: the event trace so far
and the `success` flag (initially `true`). -/
structure St where
  events : List Event
  success : Bool
  deriving DecidableEq, Repr

/-- A step of `__main__` either continues with a new state or terminates
the process with a final state and outcome. -/
abbrev StepRes := Except (St × Outcome) St

def emit (s : St) (e : Event) : St :=
  { s with events := s.events ++ [e] }

def sysExit (s : St) (msg : String) : StepRes :=
  .error (s, .exitMsg msg)

def pyRaise (s : St) (msg : String) : StepRes :=
  .error (s, .pyError msg)

/-- `if error_code != 0: success = False` after each stage call. -/
def updSuccess (success : Bool) (code : Nat) : Bool :=
  if code ≠ 0 then false else success

/-- Record one stage execution: the stage event, the `log.write` of its
message, and the success update from its error code. -/
def record (s : St) (e : Event) (res : Nat × String) : St :=
  { events := s.events ++ [e, .logRow res.2], success := updSuccess s.success res.1 }

/-- `has_option` check followed by use of the value: missing key means
`sys.exit(msg)`. -/
def require {α : Type} (s : St) (o : Option α) (msg : String) (k : α → StepRes) : StepRes :=
  match o with
  | none => sysExit s msg
  | some a => k a

/-! ## The `__main__` steps, in program order -/

/-- Lines 470-475: `dir_local` must be configured and exist, otherwise
`sys.exit` before anything else happens. -/
def stepDirLocal (cfg : Config) (env : Env) (s : St) : StepRes :=
  match cfg.general.dir_local with
  | none => sysExit s "El directorio de copias local no se ha especificado (dir_local)"
  | some _ =>
    if env.dirLocalExists then .ok s
    else sysExit s "El directorio de copias local no existe"

/-- Lines 477-487: the log file is created (any previous one removed)
and the table header and start row are written. -/
def stepStartLog (s : St) : StepRes :=
  .ok (emit (emit s .logCreate) (.logHeader "Inicio"))

/-- Lines 489-500: the `delete_local` action.  Note the order: the
action row is written to the log before `days_keep_local` is checked. -/
def stepDeleteLocal (cfg : Config) (env : Env) (s : St) : StepRes :=
  if cfg.actions.delete_local then
    let s := emit s (.logAction "Eliminando copias antiguas locales")
    match cfg.general.days_keep_local with
    | none =>
      sysExit s
        "Los días a mantener las copias locales antiguas no se ha especificado (days_keep_local)"
    | some _ => .ok (record s .runDeleteLocal env.deleteLocalRes)
  else .ok s

/-- Lines 502-523: the `delete_remote` action. -/
def stepDeleteRemote (cfg : Config) (env : Env) (s : St) : StepRes :=
  if cfg.actions.delete_remote then
    let s := emit s (.logAction "Eliminando copias antiguas remotas")
    require s cfg.general.days_keep_remote
      "Los días a mantener las copias remotas antiguas no se ha especificado (days_keep_remote)"
      fun _ =>
    require s cfg.general.dir_remote
      "El directorio remoto no se ha especificado (dir_remote)" fun _ =>
    require s cfg.executables.rclone
      "El ejecutable de rclone no se ha especificado (rclone)" fun p =>
    if env.exeExists p then .ok (record s .runDeleteRemote env.deleteRemoteRes)
    else sysExit s "El ejecutable de rclone no existe"
  else .ok s

/-- Lines 525-532: the working directory is created whenever the
`compress_dir` or `export_db` action is enabled. -/
def stepWorkDir (cfg : Config) (s : St) : StepRes :=
  if cfg.actions.compress_dir || cfg.actions.export_db then .ok (emit s .mkWorkDir)
  else .ok s

/-- Lines 534-551: the `compress_dir` action; the `tar` executable is
only required when `compress_method` is `Tar` (default `Python`). -/
def stepCompress (cfg : Config) (env : Env) (s : St) : StepRes :=
  if cfg.actions.compress_dir then
    let s := emit s (.logAction "Comprimiendo directorios a local")
    if cfg.general.compress_method.getD "Python" = "Tar" then
      require s cfg.executables.tar
        "El ejecutable de tar no se ha especificado (tar)" fun p =>
      if env.exeExists p then .ok (record s .runCompress env.compressRes)
      else sysExit s "El ejecutable de tar no existe"
    else .ok (record s .runCompress env.compressRes)
  else .ok s

/-- Lines 557-601: the loop over database sections for `export_db`.
Each required key is checked (in source order) with `sys.exit` when
absent, and the `mysqldump` executable is re-checked inside the loop for
every exported section. -/
def exportLoop (exe : ExecutablesCfg) (env : Env) : List DbSection → St → StepRes
  | [], s => .ok s
  | sec :: rest, s =>
    if sec.exportFlag then
      require s sec.aliasName
        "El alias de la base de datos no se ha especificado (alias)" fun a =>
      require s sec.host
        "El host de la base de datos no se ha especificado (host)" fun _ =>
      require s sec.port
        "El puerto de la base de datos no se ha especificado (port)" fun _ =>
      require s sec.database
        "El nombre de la base de datos no se ha especificado (database)" fun _ =>
      require s sec.user
        "El usuario de la base de datos no se ha especificado (user)" fun _ =>
      require s sec.password
        "La contraseña de la base de datos no se ha especificado (password)" fun _ =>
      require s exe.mysqldump
        "El ejecutable de mysqldump no se ha especificado (mysqldump)" fun p =>
      if env.exeExists p then exportLoop exe env rest (record s (.runExport a) (env.exportRes a))
      else sysExit s "El ejecutable de mysqldump no existe"
    else exportLoop exe env rest s

/-- Lines 553-601: the `export_db` action. -/
def stepExport (cfg : Config) (env : Env) (s : St) : StepRes :=
  if cfg.actions.export_db then
    exportLoop cfg.executables env cfg.databases
      (emit s (.logAction "Exportando bases de datos a local"))
  else .ok s

/-- Lines 607-648: the loop over database sections for `check_db_size`.
Faithful quirks: the missing `max_size` message is the copy-pasted
password message; the executable presence is checked on the `mysqldump`
key while the path is read from the `mysql` key, so a configuration with
`mysqldump` set but `mysql` absent reaches `os.path.exists(None)`, which
raises an uncaught `TypeError`. -/
def checkLoop (exe : ExecutablesCfg) (env : Env) : List DbSection → St → StepRes
  | [], s => .ok s
  | sec :: rest, s =>
    if sec.checkSizeFlag then
      require s sec.aliasName
        "El alias de la base de datos no se ha especificado (alias)" fun a =>
      require s sec.host
        "El host de la base de datos no se ha especificado (host)" fun _ =>
      require s sec.port
        "El puerto de la base de datos no se ha especificado (port)" fun _ =>
      require s sec.database
        "El nombre de la base de datos no se ha especificado (database)" fun db =>
      require s sec.user
        "El usuario de la base de datos no se ha especificado (user)" fun _ =>
      require s sec.password
        "La contraseña de la base de datos no se ha especificado (password)" fun _ =>
      require s sec.max_size
        "La contraseña de la base de datos no se ha especificado (max_size)" fun m =>
      match exe.mysqldump with
      | none => sysExit s "El ejecutable de mysqldump no se ha especificado (mysql)"
      | some _ =>
        match exe.mysql with
        | none =>
          pyRaise s "TypeError: stat: path should be string, bytes, os.PathLike or integer"
        | some p =>
          if env.exeExists p then
            checkLoop exe env rest (record s (.runCheckSize a) (check_size_db a db m (env.queryRes db)))
          else sysExit s "El ejecutable de mysql no existe"
    else checkLoop exe env rest s

/-- Lines 603-648: the `check_db_size` action. -/
def stepCheck (cfg : Config) (env : Env) (s : St) : StepRes :=
  if cfg.actions.check_db_size then
    checkLoop cfg.executables env cfg.databases
      (emit s (.logAction "Comprobando tamaño bases de datos"))
  else .ok s

/-- Lines 650-673: the `upload_dir` action.  The requirement that
`compress_dir` or `export_db` was enabled in the same run is only
checked here, when the upload stage is reached. -/
def stepUpload (cfg : Config) (env : Env) (s : St) : StepRes :=
  if cfg.actions.upload_dir then
    if cfg.actions.compress_dir || cfg.actions.export_db then
      let s := emit s (.logAction "Subiendo copias a remoto")
      require s cfg.general.dir_remote
        "El directorio remoto no se ha especificado (dir_remote)" fun _ =>
      require s cfg.executables.rclone
        "El ejecutable de rclone no se ha especificado (rclone)" fun p =>
      if env.exeExists p then .ok (record s .runUpload env.uploadRes)
      else sysExit s "El ejecutable de rclone no existe"
    else sysExit s "Has elegido subir la copia pero no exportas directorios ni bases de datos"
  else .ok s

/-- Lines 675-679: the closing rows of the log. -/
def stepEndLog (s : St) : StepRes :=
  .ok (emit s (.logHeader "Fin"))

/-- Lines 682-684: the log file is copied into the working directory
when that directory was created. -/
def stepCopyLog (cfg : Config) (s : St) : StepRes :=
  if cfg.actions.compress_dir || cfg.actions.export_db then .ok (emit s .copyLog)
  else .ok s

/-- Lines 686-739: the notification.  When the decision fires, the mail
is dispatched (by SMTP or sendmail) and the script ends with
`sys.exit(error_send_mail)` — a string, so the exit status is 1 even
when the mail was sent without error.  A `method` key that is absent
raises `KeyError`; a method other than `smtp`/`sendmail` leaves
`error_send_mail` unbound and raises `NameError` at the final
`sys.exit`. -/
def stepEmailAct (cfg : Config) (env : Env) (act : String) (s : St) : StepRes :=
  if emailDecision act s.success then
    let subject := emailSubject (cfg.email.subject.getD "HostingBackup Log") s.success
    require s cfg.email.sender
      "El remitente del email no se ha especificado (sender)" fun _ =>
    require s cfg.email.receiver
      "El destinatario del email no se ha especificado (receiver)" fun _ =>
    match cfg.email.method with
    | none => pyRaise s "KeyError: method"
    | some m =>
      if m = "smtp" then
        require s cfg.email.smtp_server
          "El servidor SMTP no se ha especificado (smtp_server)" fun _ =>
        require s cfg.email.smtp_port
          "El puerto del servidor SMTP no se ha especificado (smtp_port)" fun _ =>
        require s cfg.email.smtp_user
          "El usuario del servidor SMTP no se ha especificado (smtp_user)" fun _ =>
        require s cfg.email.smtp_password
          "El puerto del servidor SMTP no se ha especificado (smtp_password)" fun _ =>
        sysExit (emit s (.emailSent subject)) env.smtpRes
      else if m = "sendmail" then
        require s cfg.executables.sendmail
          "El ejecutable de sendmail no se ha especificado (sendmail)" fun p =>
        if env.exeExists p then sysExit (emit s (.emailSent subject)) env.sendmailRes
        else sysExit s "El ejecutable de sendmail no existe"
      else pyRaise s "NameError: error_send_mail is not defined"
  else .ok s

/-- Line 687: the action string is read with fallback `Never`. -/
def stepEmail (cfg : Config) (env : Env) (s : St) : StepRes :=
  stepEmailAct cfg env (cfg.actions.send_email.getD "Never") s

/-- Everything before the notification step, composed in program
order from the empty trace. -/
def preEmail (cfg : Config) (env : Env) : StepRes := do
  let s ← stepDirLocal cfg env { events := [], success := true }
  let s ← stepStartLog s
  let s ← stepDeleteLocal cfg env s
  let s ← stepDeleteRemote cfg env s
  let s ← stepWorkDir cfg s
  let s ← stepCompress cfg env s
  let s ← stepExport cfg env s
  let s ← stepCheck cfg env s
  let s ← stepUpload cfg env s
  let s ← stepEndLog s
  stepCopyLog cfg s

/-- One whole run of the script: the event trace, the final `success`
flag, and the process outcome. -/
def run (cfg : Config) (env : Env) : List Event × Bool × Outcome :=
  match preEmail cfg env >>= stepEmail cfg env with
  | .error (s, o) => (s.events, s.success, o)
  | .ok s => (s.events, s.success, .completed)

/-! ## Per-entry result lines, as separate functions

Used to state the isolation properties of the retention stages: the
line `delete_dirs_local` appends for one entry, and the line
`delete_dirs_remote` appends for one successfully purged entry. -/

def localLine (days : ℤ) (e : LocalEntry) : String :=
  if e.isDir ∧ e.ageDays > (days : ℚ) then
    if e.deleteFails then "(ERROR) " ++ e.name ++ "\n" else "(OK) " ++ e.name ++ "\n"
  else ""

def localMsg (days : ℤ) : List LocalEntry → String
  | [] => ""
  | e :: es => localLine days e ++ localMsg days es

/-- Whether one local entry makes `delete_dirs_local` record a failure. -/
def localFailb (days : ℤ) (e : LocalEntry) : Bool :=
  e.isDir && decide (e.ageDays > (days : ℚ)) && e.deleteFails

def remoteLine (dir_remote : String) (days : ℤ) (e : RemoteEntry) : String :=
  if e.ageDays > days then "(OK) " ++ dir_remote ++ "/" ++ e.name ++ "\n" else ""

def remoteMsg (dir_remote : String) (days : ℤ) : List RemoteEntry → String
  | [] => ""
  | e :: es => remoteLine dir_remote days e ++ remoteMsg dir_remote days es

/-! ## Concrete configurations and environments used as test inputs -/

/-- A default environment: every path exists, every collaborator call
succeeds with empty output. -/
def envDefault : Env := {}

/-- `delete_local` enabled but `days_keep_local` absent. -/
def cfgMissingDays : Config := {
  general := { dir_local := some "/backups" }
  actions := { delete_local := true }
  executables := {}
  email := {}
  databases := [] }

/-- `export_db` enabled, one database section with every required key
except `password`. -/
def cfgMissingPassword : Config := {
  general := { dir_local := some "/backups" }
  actions := { export_db := true }
  executables := { mysqldump := some "/usr/bin/mysqldump" }
  email := {}
  databases := [{ exportFlag := true, aliasName := some "web", host := some "localhost",
                  port := some "3306", database := some "webdb", user := some "root" }] }

/-- `upload_dir` enabled with `compress_dir` and `export_db` both
disabled, and `delete_local` enabled and fully configured. -/
def cfgUploadNoProducer : Config := {
  general := { dir_local := some "/backups", days_keep_local := some 30 }
  actions := { delete_local := true, upload_dir := true }
  executables := {}
  email := {}
  databases := [] }

/-- Environment for `cfgUploadNoProducer`: the local prune succeeds and
deletes one old backup directory. -/
def envUploadNoProducer : Env :=
  { deleteLocalRes := (0, "(OK) /backups/20241201-020000\n") }

/-- `check_db_size` enabled, one audited database whose measured size
(150 MB) exceeds its configured limit (100 MB); nothing else enabled. -/
def cfgOverLimit : Config := {
  general := { dir_local := some "/backups" }
  actions := { check_db_size := true }
  executables := { mysqldump := some "/usr/bin/mysqldump", mysql := some "/usr/bin/mysql" }
  email := {}
  databases := [{ checkSizeFlag := true, aliasName := some "web", host := some "localhost",
                  port := some "3306", database := some "webdb", user := some "root",
                  password := some "pw", max_size := some 100 }] }

/-- Environment for `cfgOverLimit`: the size query reports 150 MB. -/
def envOverLimit : Env :=
  { queryRes := fun db => if db = "webdb" then .ok [("webdb", 150)] else .ok [] }

/-- A run with no stage enabled and `send_email = Always`, SMTP fully
configured. -/
def cfgEmailAlways : Config := {
  general := { dir_local := some "/backups" }
  actions := { send_email := some "Always" }
  executables := {}
  email := { sender := some "backup@example.org", receiver := some "admin@example.org",
             method := some "smtp", smtp_server := some "smtp.example.org",
             smtp_port := some "587", smtp_user := some "backup@example.org",
             smtp_password := some "secret" }
  databases := [] }

/-- The same run with no `send_email` key at all. -/
def cfgEmailAbsent : Config := {
  general := { dir_local := some "/backups" }
  actions := {}
  executables := {}
  email := {}
  databases := [] }

/-- A configuration with the `send_email` key replaced. -/
def withSend (cfg : Config) (o : Option String) : Config :=
  { cfg with actions := { cfg.actions with send_email := o } }

/-- Local retention entries: two expired directories (the second of
which fails to delete) followed by a fresh one. -/
def localEntriesW : List LocalEntry :=
  [{ name := "/backups/20241110-020000", ageDays := 40 },
   { name := "/backups/20241111-020000", ageDays := 39, deleteFails := true },
   { name := "/backups/20241230-020000", ageDays := 5 }]

/-- Remote retention entries around a failing one: one expired entry
that purges fine before it, one expired entry after it. -/
def remotePreW : List RemoteEntry := [{ name := "20241101-020000", ageDays := 45 }]

def remoteEW : RemoteEntry :=
  { name := "20241105-020000", ageDays := 41, purgeFails := true,
    purgeOutput := "purge failed\n" }

def remotePostW : List RemoteEntry := [{ name := "20241106-020000", ageDays := 40 }]

/-! ## Claim theorems -/

/-- C1: the claim states that every missing required configuration value
for an enabled stage is detected during Init, before any stage executes
and before the working directory or the log file is touched.  The code
instead detects such a value only when the enabled stage is reached:
with `delete_local` enabled and `days_keep_local` absent, the log file
has already been created and written to when the fatal exit fires; with
`export_db` enabled and a database password absent, the working
directory has already been created as well. -/
theorem c1_missing_required_config_mid_run :
    run cfgMissingDays envDefault
      = ([.logCreate, .logHeader "Inicio", .logAction "Eliminando copias antiguas locales"],
          true,
          .exitMsg
            "Los días a mantener las copias locales antiguas no se ha especificado (days_keep_local)")
    ∧ Event.logCreate ∈ (run cfgMissingDays envDefault).1
    ∧ run cfgMissingPassword envDefault
      = ([.logCreate, .logHeader "Inicio", .mkWorkDir,
          .logAction "Exportando bases de datos a local"],
          true,
          .exitMsg "La contraseña de la base de datos no se ha especificado (password)")
    ∧ Event.mkWorkDir ∈ (run cfgMissingPassword envDefault).1 := by
  refine ⟨by decide, by decide, by decide, by decide⟩

/-- C2: the claim states that enabling Upload with Archive and Export
both disabled aborts with a fatal validation error at Init, before any
stage executes.  The code performs this check only when the upload
stage is reached: with `delete_local` also enabled, the local prune
stage has already executed (and deleted old backups) before the fatal
exit.  The other two parts of the claim do hold on this input: no
working directory is created, and the process exit status is nonzero. -/
theorem c2_upload_validation_when_stage_reached :
    run cfgUploadNoProducer envUploadNoProducer
      = ([.logCreate, .logHeader "Inicio", .logAction "Eliminando copias antiguas locales",
          .runDeleteLocal, .logRow "(OK) /backups/20241201-020000\n"],
          true,
          .exitMsg "Has elegido subir la copia pero no exportas directorios ni bases de datos")
    ∧ Event.runDeleteLocal ∈ (run cfgUploadNoProducer envUploadNoProducer).1
    ∧ Event.mkWorkDir ∉ (run cfgUploadNoProducer envUploadNoProducer).1
    ∧ exitStatus (run cfgUploadNoProducer envUploadNoProducer).2.2 = 1 := by
  refine ⟨by decide, by decide, by decide, by decide⟩

/-- C3 counterexample: the claim states that an over-limit database
produces a WARNING that does not degrade the aggregate success flag.
In a run whose only non-OK item is the over-limit `(WARNING)` result
(150 MB measured against a 100 MB limit, no ERROR anywhere), the final
`success` flag is `false`: `check_size_db` returns error code 1 for the
over-limit case and `__main__` downgrades `success` on any nonzero
code. -/
theorem c3_overlimit_warning_flips_success_cx :
    run cfgOverLimit envOverLimit
      = ([.logCreate, .logHeader "Inicio", .logAction "Comprobando tamaño bases de datos",
          .runCheckSize "web", .logRow "(WARNING) web (150MB)\n", .logHeader "Fin"],
          false, .completed) := by
  decide

/-- C4: the notification decision truth table.  `Always` sends with the
subject suffixed `" (OK)"` on success and `" (ERROR)"` on failure;
`OnlyError` sends only on failure, with suffix `" (ERROR)"`; `Never`
never sends. -/
theorem c4_notification_truth_table (subj : String) :
    emailDecision "Always" true = true
    ∧ emailSubject subj true = subj ++ " (OK)"
    ∧ emailDecision "Always" false = true
    ∧ emailSubject subj false = subj ++ " (ERROR)"
    ∧ emailDecision "OnlyError" true = false
    ∧ emailDecision "OnlyError" false = true
    ∧ (∀ b, emailDecision "Never" b = false) := by
  exact ⟨rfl, rfl, rfl, rfl, rfl, rfl, fun b => by cases b <;> rfl⟩

/-- C4 witness: the truth table at the default subject. -/
theorem c4_notification_truth_table_w :
    emailDecision "Always" true = true
    ∧ emailSubject "HostingBackup Log" true = "HostingBackup Log" ++ " (OK)"
    ∧ emailDecision "Always" false = true
    ∧ emailSubject "HostingBackup Log" false = "HostingBackup Log" ++ " (ERROR)"
    ∧ emailDecision "OnlyError" true = false
    ∧ emailDecision "OnlyError" false = true
    ∧ (∀ b, emailDecision "Never" b = false) :=
  c4_notification_truth_table "HostingBackup Log"

/-- C5 counterexample: the claim states that in both retention
variants a failed deletion does not prevent evaluation and deletion of
the remaining entries.  In the remote variant the whole loop sits in
one `try`: with two expired entries of which the first fails to purge,
the function returns after the first failure — the second expired entry
is never evaluated and gets no result. -/
theorem c5_remote_prune_abort_cx :
    delete_dirs_remote "remote:backups" 30
      (.ok [{ name := "20241101-020000", ageDays := 45, purgeFails := true,
              purgeOutput := "purge failed\n" },
            { name := "20241102-020000", ageDays := 44 }])
      = (1, "(ERROR) remote:backups/20241101-020000\npurge failed\n") := by
  decide

/-- C6: the claim states that under either compression strategy a
failing spec yields an ERROR item result and does not abort the stage.
The failure-isolation does hold for a nonexistent source directory
(second conjunct), but when a compression failure leaves no
`<name>.tar.gz` behind (for example a configured tar path that exists
but cannot be executed, or an archiver failing before creating the
file), the `except` handler itself calls `get_file_size` on the missing
file and raises an uncaught `OSError`: the stage aborts, the failing
spec gets no ERROR item, and the remaining specs are never processed
(first conjunct). -/
theorem c6_compress_handler_crash :
    compress_dirs_local
      [{ name := "www", dir := "/var/www", outcome := .ok 2097152 },
       { name := "conf", dir := "/etc/app", outcome := .procErr "tar: error\n" none },
       { name := "home", dir := "/home/u", outcome := .ok 1048576 }] 0 ""
      = .error "FileNotFoundError: /etc/app"
    ∧ compress_dirs_local
        [{ name := "gone", dir := "/nope", dirExists := false },
         { name := "www", dir := "/var/www", outcome := .ok 2097152 }] 0 ""
      = .ok (1, "(ERROR) /nope does not exist\n(OK) /var/www (2MB)\n") := by
  refine ⟨rfl, rfl⟩

/-- C7 counterexample: the claim states that a query output with no row
matching the database name yields an ERROR result with no size.  The
code leaves `db_size` at its initial `0` when no row matches, then runs
the ordinary limit comparison: the result is `(OK)` with the size
string `0MB`, error code 0. -/
theorem c7_no_matching_row_ok_cx :
    check_size_db "blog" "blogdb" 100 (.ok [("otherdb", 50)])
      = (0, "(OK) blog (0MB)\n") := by
  decide

/-- C8 counterexample: the claim states that a target with an empty
exclusion string is invoked with no exclusion flags.  Splitting the
empty string on commas yields one empty table name, so the code appends
exactly one `--ignore-table` flag naming `mydb.` (database name plus
dot, empty table). -/
theorem c8_empty_exclude_flag_cx :
    export_db_args "/usr/bin/mysqldump" "root" "3306" "secret" "localhost" "mydb" ""
        "/backups/20250101-020000/web.sql"
      = ["/usr/bin/mysqldump", "-u", "root", "--port", "3306", "-psecret", "-h", "localhost",
          "mydb", "--force", "--single-transaction", "--result-file",
          "/backups/20250101-020000/web.sql", "--ignore-table", "mydb."] := by
  decide

/-- C9: the claim states that every run that completed all enabled
stages exits with code 0, including runs in which the notification
email was dispatched.  A run that dispatches the email ends with
`sys.exit(error_send_mail)` whose argument is a string — the empty
string when the mail was sent without error — and CPython exits with
status 1 on any string argument, so every email-dispatching run exits
nonzero.  A completed run that sends no email does fall off the end
with status 0 (second part). -/
theorem c9_email_dispatch_exit_status :
    run cfgEmailAlways envDefault
      = ([.logCreate, .logHeader "Inicio", .logHeader "Fin",
          .emailSent "HostingBackup Log (OK)"],
          true, .exitMsg "")
    ∧ exitStatus (run cfgEmailAlways envDefault).2.2 = 1
    ∧ run cfgEmailAbsent envDefault
      = ([.logCreate, .logHeader "Inicio", .logHeader "Fin"], true, .completed)
    ∧ exitStatus (run cfgEmailAbsent envDefault).2.2 = 0 := by
  refine ⟨by decide, by decide, by decide, by decide⟩

/-! ## Helper lemmas -/

/-- No step before the notification reads the `send_email` key. -/
theorem preEmail_withSend (cfg : Config) (o : Option String) (env : Env) :
    preEmail (withSend cfg o) env = preEmail cfg env := by
  simp only [preEmail]
  simp only [show ∀ s, stepDirLocal (withSend cfg o) env s = stepDirLocal cfg env s from
      fun _ => rfl,
    show ∀ s, stepDeleteLocal (withSend cfg o) env s = stepDeleteLocal cfg env s from
      fun _ => rfl,
    show ∀ s, stepDeleteRemote (withSend cfg o) env s = stepDeleteRemote cfg env s from
      fun _ => rfl,
    show ∀ s, stepWorkDir (withSend cfg o) s = stepWorkDir cfg s from fun _ => rfl,
    show ∀ s, stepCompress (withSend cfg o) env s = stepCompress cfg env s from fun _ => rfl,
    show ∀ s, stepExport (withSend cfg o) env s = stepExport cfg env s from fun _ => rfl,
    show ∀ s, stepCheck (withSend cfg o) env s = stepCheck cfg env s from fun _ => rfl,
    show ∀ s, stepUpload (withSend cfg o) env s = stepUpload cfg env s from fun _ => rfl,
    show ∀ s, stepCopyLog (withSend cfg o) s = stepCopyLog cfg s from fun _ => rfl]

/-- When the decision is negative, the notification step is a no-op. -/
theorem stepEmailAct_no_send (cfg : Config) (env : Env) (act : String) (s : St)
    (h : emailDecision act s.success = false) : stepEmailAct cfg env act s = .ok s := by
  unfold stepEmailAct
  rw [h]
  rfl

/-- Two configurations with the same pre-notification behaviour and the
same notification step produce the same run. -/
theorem run_congr (cfg1 cfg2 : Config) (env : Env)
    (hpre : preEmail cfg1 env = preEmail cfg2 env)
    (hstep : ∀ t : St, stepEmail cfg1 env t = stepEmail cfg2 env t) :
    run cfg1 env = run cfg2 env := by
  unfold run
  rw [hpre]
  have hbind : preEmail cfg2 env >>= stepEmail cfg1 env
      = preEmail cfg2 env >>= stepEmail cfg2 env := by
    cases preEmail cfg2 env with
    | error p => rfl
    | ok s => exact hstep s
  rw [hbind]

theorem emailDecision_never (b : Bool) : emailDecision "Never" b = false := by
  cases b <;> rfl

/-- A fold over rows none of which names the database leaves the
accumulator unchanged. -/
theorem dbSizeOf_no_match (db : String) (rows : List (String × ℚ))
    (h : ∀ r ∈ rows, r.1 ≠ db) : dbSizeOf db rows = 0 := by
  have aux : ∀ (rs : List (String × ℚ)) (acc : ℚ), (∀ r ∈ rs, r.1 ≠ db) →
      rs.foldl (fun acc r => if r.1 = db then r.2 else acc) acc = acc := by
    intro rs
    induction rs with
    | nil => intro acc _; rfl
    | cons r rs ih =>
      intro acc hh
      rw [List.foldl_cons, if_neg (hh r (List.mem_cons_self r rs))]
      exact ih acc fun x hx => hh x (List.mem_cons_of_mem r hx)
  exact aux rows 0 h

/-- The argument-extending fold of `export_db` appends one flag pair per
table name. -/
theorem export_args_join (db : String) (ts : List String) (init : List String) :
    ts.foldl (fun args t => args ++ ["--ignore-table", db ++ "." ++ t]) init
      = init ++ (ts.map (fun t => ["--ignore-table", db ++ "." ++ t])).flatten := by
  induction ts generalizing init with
  | nil => simp
  | cons t ts ih => simp [ih, List.append_assoc]

/-- The fold of `delete_dirs_local` from any accumulator: the message
grows by exactly one line per expired directory entry, and the error
code becomes 1 exactly when some expired directory entry fails to
delete. -/
theorem delete_dirs_local_go (days : ℤ) (es : List LocalEntry) :
    ∀ (c : Nat) (m : String),
    es.foldl
      (fun acc e =>
        if e.isDir ∧ e.ageDays > (days : ℚ) then
          if e.deleteFails then (1, acc.2 ++ ("(ERROR) " ++ e.name ++ "\n"))
          else (acc.1, acc.2 ++ ("(OK) " ++ e.name ++ "\n"))
        else acc)
      (c, m)
    = (if es.any (localFailb days) then 1 else c, m ++ localMsg days es) := by
  induction es with
  | nil => intro c m; simp [localMsg]
  | cons e es ih =>
    intro c m
    rw [List.foldl_cons, List.any_cons]
    by_cases h1 : e.isDir ∧ e.ageDays > (days : ℚ)
    · by_cases h2 : e.deleteFails = true
      · have hb : localFailb days e = true := by
          simp [localFailb, h1.1, h1.2, h2]
        rw [if_pos h1, if_pos h2, ih, hb]
        simp [localMsg, localLine, h1, h2, String.append_assoc]
      · have hdf : e.deleteFails = false := Bool.eq_false_iff.mpr h2
        have hb : localFailb days e = false := by simp [localFailb, hdf]
        rw [if_pos h1, if_neg h2, ih, hb]
        simp [localMsg, localLine, h1, h2, String.append_assoc]
    · have hb : localFailb days e = false := by
        simp [localFailb]
        intro hd hlt
        exact absurd (And.intro hd hlt) h1
      rw [if_neg h1, ih, hb]
      simp [localMsg, localLine, h1]

/-- The loop of `delete_dirs_remote`: while expired entries purge
successfully the loop continues, and the first expired entry whose
purge fails ends the whole function, whatever comes after it. -/
theorem delete_dirs_remote_go_abort (d : String) (days : ℤ) (e : RemoteEntry)
    (post : List RemoteEntry) (he : e.ageDays > days) (hf : e.purgeFails = true) :
    ∀ (pre : List RemoteEntry) (c : Nat) (m : String),
      (∀ x ∈ pre, x.ageDays > days → x.purgeFails = false) →
      delete_dirs_remote_go d days (pre ++ e :: post) (c, m)
        = (1, m ++ (remoteMsg d days pre
            ++ ("(ERROR) " ++ d ++ "/" ++ e.name ++ "\n" ++ rstripNL e.purgeOutput ++ "\n"))) := by
  intro pre
  induction pre with
  | nil =>
    intro c m _
    rw [List.nil_append]
    show delete_dirs_remote_go d days (e :: post) (c, m) = _
    rw [delete_dirs_remote_go, if_pos he, if_pos hf]
    simp [remoteMsg]
  | cons x xs ih =>
    intro c m hpre
    rw [List.cons_append, delete_dirs_remote_go]
    by_cases hx : x.ageDays > days
    · have hxf : x.purgeFails = false := hpre x (List.mem_cons_self x xs) hx
      rw [if_pos hx, hxf]
      simp only [Bool.false_eq_true, if_false]
      rw [ih c (m ++ ("(OK) " ++ d ++ "/" ++ x.name ++ "\n"))
          (fun y hy => hpre y (List.mem_cons_of_mem x hy))]
      simp [remoteMsg, remoteLine, hx, String.append_assoc]
    · rw [if_neg hx, ih c m (fun y hy => hpre y (List.mem_cons_of_mem x hy))]
      simp [remoteMsg, remoteLine, hx]

/-! ## Remaining claim theorems -/

/-- C3 amended: an audited database whose measured size strictly
exceeds its limit yields a result labelled `(WARNING)` but carrying the
nonzero error code 1, and `__main__` sets the aggregate success flag to
false on any nonzero code — so the warning does degrade the run
verdict. -/
theorem c3_overlimit_warning_degrades_success (a db : String) (m : ℤ)
    (rows : List (String × ℚ)) (b : Bool)
    (h : dbSizeOf db rows > (m : ℚ)) :
    check_size_db a db m (.ok rows)
      = (1, "(WARNING) " ++ a ++ " (" ++ convert_size (dbSizeOf db rows) ++ ")" ++ "\n")
    ∧ updSuccess b 1 = false := by
  constructor
  · have hstep : check_size_db a db m (.ok rows)
        = if dbSizeOf db rows > (m : ℚ) then
            (1, "(WARNING) " ++ a ++ " (" ++ convert_size (dbSizeOf db rows) ++ ")" ++ "\n")
          else (0, "(OK) " ++ a ++ " (" ++ convert_size (dbSizeOf db rows) ++ ")" ++ "\n") := rfl
    rw [hstep, if_pos h]
  · rfl

/-- C3 witness: 150 MB measured against a 100 MB limit. -/
theorem c3_overlimit_warning_degrades_success_w :
    dbSizeOf "webdb" [("webdb", 150)] > ((100 : ℤ) : ℚ)
    ∧ (check_size_db "web" "webdb" 100 (.ok [("webdb", 150)])
        = (1, "(WARNING) " ++ "web" ++ " ("
            ++ convert_size (dbSizeOf "webdb" [("webdb", 150)]) ++ ")" ++ "\n")
      ∧ updSuccess true 1 = false) :=
  ⟨by decide,
    c3_overlimit_warning_degrades_success "web" "webdb" 100 [("webdb", 150)] true (by decide)⟩

/-- C5 amended: per-entry failure isolation holds for the local
retention variant — the recorded message is the concatenation of one
line per expired directory entry, a failed deletion only marks the
code, and later entries are still processed — but not for the remote
variant, where the single `try` around the loop makes the first failed
purge end the function: the entries after it are neither evaluated nor
recorded, whatever they are. -/
theorem c5_prune_isolation_local_only :
    (∀ (entries : List LocalEntry) (days : ℤ),
      delete_dirs_local entries days
        = (if entries.any (localFailb days) then 1 else 0, localMsg days entries))
    ∧ (∀ (d : String) (days : ℤ) (pre : List RemoteEntry) (e : RemoteEntry)
          (post : List RemoteEntry),
        (∀ x ∈ pre, x.ageDays > days → x.purgeFails = false) →
        e.ageDays > days → e.purgeFails = true →
        delete_dirs_remote d days (.ok (pre ++ e :: post))
          = (1, remoteMsg d days pre
              ++ ("(ERROR) " ++ d ++ "/" ++ e.name ++ "\n"
                  ++ rstripNL e.purgeOutput ++ "\n"))) := by
  constructor
  · intro entries days
    have h := delete_dirs_local_go days entries 0 ""
    simpa using h
  · intro d days pre e post hpre he hf
    have h := delete_dirs_remote_go_abort d days e post he hf pre 0 "" hpre
    simpa using h

/-- C5 witness: three local entries (expired, expired-and-failing,
fresh) all get processed; remotely, one clean expired entry before the
failing one and one expired entry after it, which is dropped. -/
theorem c5_prune_isolation_local_only_w :
    delete_dirs_local localEntriesW 30
      = (if localEntriesW.any (localFailb 30) then 1 else 0, localMsg 30 localEntriesW)
    ∧ (∀ x ∈ remotePreW, x.ageDays > 30 → x.purgeFails = false)
    ∧ remoteEW.ageDays > 30
    ∧ remoteEW.purgeFails = true
    ∧ delete_dirs_remote "remote:backups" 30 (.ok (remotePreW ++ remoteEW :: remotePostW))
      = (1, remoteMsg "remote:backups" 30 remotePreW
          ++ ("(ERROR) " ++ "remote:backups" ++ "/" ++ remoteEW.name ++ "\n"
              ++ rstripNL remoteEW.purgeOutput ++ "\n")) :=
  ⟨c5_prune_isolation_local_only.1 localEntriesW 30,
    by decide, by decide, by decide,
    c5_prune_isolation_local_only.2 "remote:backups" 30 remotePreW remoteEW remotePostW
      (by decide) (by decide) (by decide)⟩

/-- C7 amended: a nonzero exit of the size query yields an ERROR result
carrying no size; but a query output with no row matching the database
name leaves the measured size at its default 0, and for a nonnegative
limit the target is reported `(OK)` with the size string `0MB` — not
ERROR. -/
theorem c7_collaborator_failure_error :
    (∀ (a db : String) (m : ℤ) (out : String),
       check_size_db a db m (.error out) = (2, "(ERROR) " ++ a ++ " " ++ rstripNL out ++ "\n"))
    ∧ (∀ (a db : String) (m : ℤ) (rows : List (String × ℚ)),
        (∀ r ∈ rows, r.1 ≠ db) → 0 ≤ m →
        check_size_db a db m (.ok rows) = (0, "(OK) " ++ a ++ " (0MB)" ++ "\n")) := by
  constructor
  · intro a db m out; rfl
  · intro a db m rows hrows hm
    have h0 : dbSizeOf db rows = 0 := dbSizeOf_no_match db rows hrows
    have hstep : check_size_db a db m (.ok rows)
        = if dbSizeOf db rows > (m : ℚ) then
            (1, "(WARNING) " ++ a ++ " (" ++ convert_size (dbSizeOf db rows) ++ ")" ++ "\n")
          else (0, "(OK) " ++ a ++ " (" ++ convert_size (dbSizeOf db rows) ++ ")" ++ "\n") := rfl
    rw [hstep, h0]
    rw [if_neg (not_lt.mpr (by exact_mod_cast hm))]
    rw [show convert_size 0 = "0MB" from rfl]
    simp [String.append_assoc]

/-- C7 witness: a failing query, and an output whose only row names a
different schema. -/
theorem c7_collaborator_failure_error_w :
    check_size_db "blog" "blogdb" 100 (.error "mysql: Access denied\n")
      = (2, "(ERROR) " ++ "blog" ++ " " ++ rstripNL "mysql: Access denied\n" ++ "\n")
    ∧ (∀ r ∈ [(("otherdb" : String), (50 : ℚ))], r.1 ≠ "blogdb")
    ∧ (0 : ℤ) ≤ 100
    ∧ check_size_db "blog" "blogdb" 100 (.ok [("otherdb", 50)])
      = (0, "(OK) " ++ "blog" ++ " (0MB)" ++ "\n") :=
  ⟨c7_collaborator_failure_error.1 "blog" "blogdb" 100 "mysql: Access denied\n",
    by decide, by decide,
    c7_collaborator_failure_error.2 "blog" "blogdb" 100 [("otherdb", 50)]
      (by decide) (by decide)⟩

/-- C8 amended: the export stage passes one `--ignore-table` flag pair
per name obtained by deleting every space from the exclusion string and
splitting it on commas.  Splitting the empty string yields one empty
name, so a target whose exclusion string is empty is invoked with
exactly one exclusion flag naming `<database>.` — not with none. -/
theorem c8_exclusion_flags (cp u pt pw h db ex tf : String) :
    export_db_args cp u pt pw h db ex tf
      = [cp, "-u", u, "--port", pt, "-p" ++ pw, "-h", h, db, "--force", "--single-transaction",
          "--result-file", tf]
        ++ ((excludeTables ex).map (fun t => ["--ignore-table", db ++ "." ++ t])).flatten
    ∧ (ex = "" →
        export_db_args cp u pt pw h db ex tf
          = [cp, "-u", u, "--port", pt, "-p" ++ pw, "-h", h, db, "--force", "--single-transaction",
              "--result-file", tf] ++ ["--ignore-table", db ++ "."]) := by
  have hmain := export_args_join db (excludeTables ex)
    [cp, "-u", u, "--port", pt, "-p" ++ pw, "-h", h, db, "--force", "--single-transaction",
      "--result-file", tf]
  refine ⟨hmain, ?_⟩
  intro hex
  subst hex
  rw [export_db_args, hmain]
  rw [show excludeTables "" = [""] from rfl]
  simp

/-- C8 witness: the flag list at an empty exclusion string. -/
theorem c8_exclusion_flags_w :
    export_db_args "/usr/bin/mysqldump" "root" "3306" "secret" "localhost" "mydb" ""
        "/backups/20250101-020000/web.sql"
      = ["/usr/bin/mysqldump", "-u", "root", "--port", "3306", "-p" ++ "secret", "-h",
          "localhost", "mydb", "--force", "--single-transaction", "--result-file",
          "/backups/20250101-020000/web.sql"] ++ ["--ignore-table", "mydb" ++ "."] :=
  (c8_exclusion_flags "/usr/bin/mysqldump" "root" "3306" "secret" "localhost" "mydb" ""
    "/backups/20250101-020000/web.sql").2 rfl

/-- C10: a `send_email` value other than `Always` and `OnlyError`
(including a missing key) never triggers a notification, and the whole
run is identical to a run with the mode `Never`. -/
theorem c10_unknown_mode_like_never (cfg : Config) (env : Env) (m : String)
    (h1 : m ≠ "Always") (h2 : m ≠ "OnlyError") :
    (∀ b, emailDecision m b = false)
    ∧ run (withSend cfg (some m)) env = run (withSend cfg (some "Never")) env
    ∧ run (withSend cfg none) env = run (withSend cfg (some "Never")) env := by
  have hdec : ∀ b, emailDecision m b = false := by
    intro b
    unfold emailDecision
    rw [decide_eq_false h1, decide_eq_false h2]
    cases b <;> rfl
  refine ⟨hdec, ?_, ?_⟩
  · refine run_congr _ _ env (by rw [preEmail_withSend, preEmail_withSend]) ?_
    intro t
    have e1 : stepEmail (withSend cfg (some m)) env t = stepEmailAct cfg env m t := rfl
    have e2 : stepEmail (withSend cfg (some "Never")) env t
        = stepEmailAct cfg env "Never" t := rfl
    rw [e1, e2, stepEmailAct_no_send cfg env m t (hdec t.success),
      stepEmailAct_no_send cfg env "Never" t (emailDecision_never t.success)]
  · exact run_congr _ _ env (by rw [preEmail_withSend, preEmail_withSend]) (fun t => rfl)

/-- C10 witness: the misspelled mode `Sometimes` on a concrete
configuration. -/
theorem c10_unknown_mode_like_never_w :
    ("Sometimes" : String) ≠ "Always"
    ∧ ("Sometimes" : String) ≠ "OnlyError"
    ∧ ((∀ b, emailDecision "Sometimes" b = false)
        ∧ run (withSend cfgEmailAbsent (some "Sometimes")) envDefault
          = run (withSend cfgEmailAbsent (some "Never")) envDefault
        ∧ run (withSend cfgEmailAbsent none) envDefault
          = run (withSend cfgEmailAbsent (some "Never")) envDefault) :=
  ⟨by decide, by decide,
    c10_unknown_mode_like_never cfgEmailAbsent envDefault "Sometimes" (by decide) (by decide)⟩

end HostingBackup
